import Mathlib

/-!
Verification of the distributed web-crawling system (master node, crawler
node, indexer node) against its natural-language specification.

The Lean definitions below are shallow embeddings of the Python sources:

* `Master.*`  embeds `src/master/master_node.py` (class `MasterNode`).
* `Crawler.*` embeds `src/crawler/crawler_node.py` (classes `RobotsCache`
  and `CrawlerNode`).
* `Indexer.*` embeds `src/indexer/indexer_node.py` (class `IndexerNode`
  and its Flask routes).

State that the claims never mention and that does not interact with them
(the crawler-heartbeat registry, wall-clock timestamps, log output, the
AWS client handles) is projected away; every field and every branch that a
claim touches is translated statement by statement.
-/

namespace Master

/-- State of `MasterNode` (src/master/master_node.py), restricted to the
fields the claims are about.  `queue` models the `crawler-tasks` SQS queue
as the ordered list of messages the master has sent with
`add_url_to_queue`; nothing in the master ever removes from it, so it is
also the full send history.  `seen` models `self.seen_urls`,
`visited` models `self.visited_urls` (Python sets, modelled as
duplicate-free lists built by guarded insertion), `activeTasks` models
`self.active_tasks` (a dict `task_id -> (url, crawler_ip, timestamp)`,
keyed here by the task id with the url kept as payload). -/
structure State where
  queue : List String
  seen : List String
  visited : List String
  activeTasks : List (String × String)
  urlsQueued : Nat
  urlsCrawled : Nat
  urlsFailed : Nat
deriving DecidableEq

/-- The state fields of a fresh `MasterNode` before the seed loop runs
(`__init__`, lines 42-67, with `seed_urls=None`). -/
def emptyState : State :=
  { queue := [], seen := [], visited := [], activeTasks := []
    urlsQueued := 0, urlsCrawled := 0, urlsFailed := 0 }

/-- `MasterNode.add_url_to_queue` (lines 84-92): send the url on the SQS
task queue and increment `stats["urls_queued"]`. -/
def add_url_to_queue (url : String) (s : State) : State :=
  { s with queue := s.queue ++ [url], urlsQueued := s.urlsQueued + 1 }

/-- Guarded insertion into a Python set modelled as a list: `set.add` on a
set whose membership was just found to fail.  Used for `visited_urls.add`
which the code performs unconditionally. -/
def setAdd (u : String) (l : List String) : List String :=
  if u ∈ l then l else u :: l

/-- The admission step the master performs at every admission site
(`__init__` lines 47-51, `process_crawl_result` lines 121-125,
`process_sqs_results` lines 169-173, `add_urls` lines 215-219):
if the url is not in `seen_urls`, call `add_url_to_queue` and then add it
to `seen_urls`, in that statement order. -/
def admitUrl (u : String) (s : State) : State :=
  if u ∈ s.seen then s
  else
    let s1 := add_url_to_queue u s
    { s1 with seen := u :: s1.seen }

/-- `MasterNode.add_urls` (lines 212-220): admit each url in order.  The
`added` return value is the number of urls that were new. -/
def add_urls (urls : List String) (s : State) : State :=
  urls.foldl (fun s u => admitUrl u s) s

/-- `MasterNode.__init__` (lines 42-67): start from the empty state and
run the seed-admission loop. -/
def initState (seeds : List String) : State :=
  add_urls seeds emptyState

/-- A message on the `crawler-results` SQS queue, as read by
`process_sqs_results` (lines 149-157). -/
structure SqsResult where
  url : String
  success : Bool
  extracted : List String
  error : Option String
deriving DecidableEq

/-- Body of the per-message processing in `MasterNode.process_sqs_results`
(lines 163-178): on success add the url to `visited_urls`, bump
`urls_crawled` and run the admission loop over `extracted_urls`; on
failure bump `urls_failed` only.  (The crawler-heartbeat update on line
plus message deletion touch no modelled field.) -/
def process_sqs_result (m : SqsResult) (s : State) : State :=
  if m.success then
    let s1 := { s with visited := setAdd m.url s.visited,
                       urlsCrawled := s.urlsCrawled + 1 }
    add_urls m.extracted s1
  else
    { s with urlsFailed := s.urlsFailed + 1 }

/-- `MasterNode.process_crawl_result` (lines 108-132), the `/submit_result`
handler: if the task id is a key of `active_tasks`, delete it and process
the outcome exactly as the SQS path does; otherwise log a warning and
change nothing. -/
def process_crawl_result (taskId url : String) (success : Bool)
    (extracted : List String) (s : State) : State :=
  if taskId ∈ s.activeTasks.map Prod.fst then
    let s0 := { s with activeTasks := s.activeTasks.filter (fun p => p.1 ≠ taskId) }
    if success then
      let s1 := { s0 with visited := setAdd url s0.visited,
                          urlsCrawled := s0.urlsCrawled + 1 }
      add_urls extracted s1
    else
      { s0 with urlsFailed := s0.urlsFailed + 1 }
  else s

/-- States of the master reachable by complete coordinator operations:
construction with any seed list, then any interleaving of `/add_urls`
requests, SQS result messages, and `/submit_result` requests.  (The
remaining handlers, `/assign_task`, `/heartbeat` and `/status`, touch only
the heartbeat registry and derived statistics, none of the fields of
`State`.) -/
inductive Reach : State → Prop where
  | init (seeds : List String) : Reach (initState seeds)
  | addUrls (urls : List String) {s : State} : Reach s → Reach (add_urls urls s)
  | sqsResult (m : SqsResult) {s : State} : Reach s → Reach (process_sqs_result m s)
  | crawlResult (taskId url : String) (success : Bool) (extracted : List String)
      {s : State} : Reach s → Reach (process_crawl_result taskId url success extracted s)

/-- Reachability refined to statement granularity inside an admission:
`midAdmit` is the state of the process between `add_url_to_queue(url)`
and `seen_urls.add(url)` in any of the admission sites (for instance
between lines 217 and 218 of `add_urls`); at that point the SQS message
already exists while `seen_urls` does not yet hold the url. -/
inductive ReachFine : State → Prop where
  | init (seeds : List String) : ReachFine (initState seeds)
  | addUrls (urls : List String) {s : State} : ReachFine s → ReachFine (add_urls urls s)
  | sqsResult (m : SqsResult) {s : State} : ReachFine s → ReachFine (process_sqs_result m s)
  | crawlResult (taskId url : String) (success : Bool) (extracted : List String)
      {s : State} : ReachFine s → ReachFine (process_crawl_result taskId url success extracted s)
  | midAdmit (u : String) {s : State} (h : u ∉ s.seen) :
      ReachFine s → ReachFine (add_url_to_queue u s)

/-- The inductive invariant of the master state: the in-flight task
registry is never populated, the task queue holds no duplicates, and at
operation boundaries every queued url is in the seen set. -/
def Inv (s : State) : Prop :=
  s.activeTasks = [] ∧ s.queue.Nodup ∧ ∀ u, u ∈ s.queue → u ∈ s.seen

end Master

namespace Crawler

/-- Whether `pat` is an initial segment of `l`; the building block of the
Python `startswith` and `split` idioms, written by structural recursion so
that concrete instances evaluate. -/
def startsWithList : List Char → List Char → Bool
  | [], _ => true
  | _ :: _, [] => false
  | p :: ps, c :: cs => p = c && startsWithList ps cs

/-- The first occurrence of the separator: `some (pre, post)` with the
scanned list equal to `pre ++ sep ++ post`, or `none` when the separator
does not occur. -/
def breakOnList (sep : List Char) : List Char → Option (List Char × List Char)
  | [] => none
  | c :: cs =>
      if startsWithList sep (c :: cs) then some ([], (c :: cs).drop sep.length)
      else
        match breakOnList sep cs with
        | some (pre, post) => some (c :: pre, post)
        | none => none

/-- Greedy left-to-right split on a separator, fuelled so the recursion is
structural; with `fuel` at least the list length it equals the Python
`str.split(sep)` on a present separator. -/
def splitOnListAux (sep : List Char) : Nat → List Char → List (List Char)
  | 0, l => [l]
  | fuel + 1, l =>
      match breakOnList sep l with
      | some (pre, post) => pre :: splitOnListAux sep fuel post
      | none => [l]

/-- Python `str.split(sep)` over character lists (for a non-empty
separator). -/
def splitOnList (sep l : List Char) : List (List Char) :=
  splitOnListAux sep (l.length + 1) l

/-- Fragment removal, from `absolute_url.split('#')[0]` (line 314): the
text before the first hash, or the whole url without one. -/
def stripFragment (u : String) : String :=
  match breakOnList ['#'] u.toList with
  | some (pre, _) => String.mk pre
  | none => u

/-- The scheme filter, from
`absolute_url.startswith(('http://', 'https://'))` (line 315). -/
def isHttpUrl (u : String) : Bool :=
  startsWithList "http://".toList u.toList ||
    startsWithList "https://".toList u.toList

/-- Scheme of an absolute http(s) URL: the text before the first "://"
(the whole string when absent, matching `split` then first element). -/
def schemeOf (u : String) : String :=
  match breakOnList "://".toList u.toList with
  | some (pre, _) => String.mk pre
  | none => u

/-- Host (netloc) of an absolute http(s) URL. -/
def hostOf (u : String) : String :=
  match breakOnList "://".toList u.toList with
  | some (_, post) => String.mk (post.takeWhile (fun c => c ≠ '/'))
  | none => ""

/-- Path of an absolute http(s) URL (everything from the first slash
after the host, possibly empty). -/
def pathOf (u : String) : String :=
  match breakOnList "://".toList u.toList with
  | some (_, post) => String.mk (post.dropWhile (fun c => c ≠ '/'))
  | none => ""

/-- Characters CPython accepts inside a URL scheme. -/
def isSchemeChar (c : Char) : Bool :=
  c.isAlphanum || c = '+' || c = '-' || c = '.'

/-- Whether a reference carries its own scheme (a letter-initial run of
scheme characters before a colon), as `urlparse` detects it. -/
def hasUrlScheme (r : String) : Bool :=
  match breakOnList [':'] r.toList with
  | some (pre, _) =>
      match pre with
      | c :: cs => c.isAlpha && cs.all isSchemeChar
      | [] => false
  | none => false

/-- The directory part of a path: everything up to and including the last
slash, or the root when the path is empty. -/
def dirOf (p : String) : String :=
  match (p.toList.reverse.dropWhile (fun c => c ≠ '/')).reverse with
  | [] => "/"
  | d => String.mk d

/-- Modelled from CPython `urllib.parse.urljoin` restricted to http(s)
base URLs: an empty reference yields the base, a reference with its own
scheme is taken as is, a network-path reference (leading //) keeps the
base scheme, an absolute-path reference keeps scheme and host, and a
relative-path reference replaces the last path segment of the base.
Dot-segment normalization is not modelled; no reference in this
development contains dot segments. -/
def urljoin (base rel : String) : String :=
  if rel.toList = [] then base
  else if hasUrlScheme rel then rel
  else if startsWithList "//".toList rel.toList then schemeOf base ++ ":" ++ rel
  else if startsWithList "/".toList rel.toList then
    schemeOf base ++ "://" ++ hostOf base ++ rel
  else schemeOf base ++ "://" ++ hostOf base ++ dirOf (pathOf base) ++ rel

/-- What `self.session.get(url)` returned: final status, the final URL
after redirects (`response.url`, which `crawl_url` never reads), the
href values of the anchor tags BeautifulSoup finds in the body, and the
title and collapsed text. -/
structure HttpResponse where
  status : Nat
  finalUrl : String
  hrefs : List String
  title : String
  text : String
deriving DecidableEq

/-- The three-part return of `crawl_url`, `(success, extracted_urls,
error)`, folded into one constructor per shape. -/
inductive CrawlOutcome where
  | robotsDenied
  | httpError (code : Nat)
  | success (links : List String) (title text : String)
deriving DecidableEq

/-- The link-extraction loop of `crawl_url` (lines 307-316): for each
href, resolve with `urljoin(url, href)` — `url` being the *requested*
URL, the function's argument — strip the fragment, keep http(s) only,
preserving order. -/
def extractLinks (requestUrl : String) (hrefs : List String) : List String :=
  (hrefs.map (fun h => stripFragment (urljoin requestUrl h))).filter isHttpUrl

/-- `CrawlerNode.crawl_url` (lines 286-338) with the HTTP transport as a
parameter: `allowed` is the verdict of `RobotsCache.can_fetch`, `resp` is
what the GET returned.  The second output is the number of seconds slept
before issuing the GET: `time.sleep(1)` on line 297, unconditionally once
robots allows, and nothing otherwise. -/
def crawl_url (allowed : Bool) (resp : HttpResponse) (url : String) :
    CrawlOutcome × Nat :=
  if !allowed then (.robotsDenied, 0)
  else if resp.status ≠ 200 then (.httpError resp.status, 1)
  else (.success (extractLinks url resp.hrefs) resp.title resp.text, 1)

/-- Modelled from the spec (4.2 step 5): the same pipeline but resolved
against the response's final URL. -/
def specExtractLinks (finalUrl : String) (hrefs : List String) : List String :=
  (hrefs.map (fun h => stripFragment (urljoin finalUrl h))).filter isHttpUrl

/-- Modelled from the spec (4.1): the per-host minimum inter-request
delay, the robots crawl-delay clamped to at least 1 second when present,
otherwise 1 second. -/
def delay_for (crawlDelay : Option Nat) : Nat :=
  match crawlDelay with
  | some d => max 1 d
  | none => 1

/-- One parsed allow/disallow line of a robots.txt wildcard-agent group. -/
structure RobotsRule where
  allow : Bool
  path : String
deriving DecidableEq

/-- Outcome of `urlopen` on the robots.txt URL inside
`RobotFileParser.read`: a network failure raises URLError out of `read`,
an HTTP error status raises HTTPError which `read` catches internally,
and a success delivers the parsed body. -/
inductive RobotsFetch where
  | networkError
  | httpStatus (code : Nat)
  | content (rules : List RobotsRule)
deriving DecidableEq

/-- State of a CPython `RobotFileParser` after `read`. -/
structure RobotParser where
  disallowAll : Bool
  allowAll : Bool
  lastChecked : Bool
  rules : List RobotsRule
deriving DecidableEq

/-- Modelled from CPython `urllib.robotparser.RobotFileParser.read`: a
network error propagates (`none`); an HTTPError with code 401 or 403 sets
`disallow_all`, another 4xx code sets `allow_all`, and any other code (in
particular every 5xx) is swallowed, leaving the parser empty with
`last_checked` unset; a successful fetch parses the body, setting
`last_checked`. -/
def readRobots : RobotsFetch → Option RobotParser
  | .networkError => none
  | .httpStatus c =>
      if c = 401 ∨ c = 403 then some ⟨true, false, false, []⟩
      else if 400 ≤ c ∧ c < 500 then some ⟨false, true, false, []⟩
      else some ⟨false, false, false, []⟩
  | .content rules => some ⟨false, false, true, rules⟩

/-- Modelled from CPython `RobotFileParser.can_fetch`: `disallow_all`
forces false, `allow_all` forces true, a parser that never parsed a body
(`last_checked` unset) answers false, and otherwise the first matching
rule decides with allow as the default.  Rule matching is kept to
wildcard-agent prefix rules, the only robots content the failure-path
claims exercise. -/
def parserCanFetch (p : RobotParser) (url : String) : Bool :=
  if p.disallowAll then false
  else if p.allowAll then true
  else if !p.lastChecked then false
  else
    match p.rules.find? (fun r => url.startsWith r.path) with
    | some r => r.allow
    | none => true

/-- `RobotsCache` state (lines 27-31): `cache` maps a domain to its
parser.  The entry timestamps are projected into the `needsFetch`
argument of `can_fetch` below, true exactly when the domain is absent or
its entry is older than `cache_timeout`. -/
structure RobotsCacheState where
  cache : List (String × RobotParser)
deriving DecidableEq

/-- `RobotsCache.can_fetch` (lines 33-55).  When a fetch is needed,
`parser.read()` runs inside a try block: if it raises (network error) the
method returns True at once and the cache is left unchanged; otherwise
the parser — whatever `read` made of an HTTP error code — is stored and
consulted.  When no fetch is needed the cached parser is consulted.  (The
`none` fallback of the cached branch is unreachable: `needsFetch` is
false only when the domain is cached.) -/
def can_fetch (st : RobotsCacheState) (domain : String) (needsFetch : Bool)
    (outcome : RobotsFetch) (url : String) : Bool × RobotsCacheState :=
  if needsFetch then
    match readRobots outcome with
    | none => (true, st)
    | some p =>
        (parserCanFetch p url, ⟨(domain, p) :: st.cache.filter (fun q => q.1 ≠ domain)⟩)
  else
    match st.cache.find? (fun q => q.1 = domain) with
    | some q => (parserCanFetch q.2 url, st)
    | none => (true, st)

end Crawler

namespace Indexer

/-- Domain extraction in `add_document` (line 89):
`url.split('//')[-1].split('/')[0]`. -/
def extractDomain (url : String) : String :=
  String.mk (((Crawler.splitOnList "//".toList url.toList).getLastD []).takeWhile
    (fun c => c ≠ '/'))

/-- One stored document of the Whoosh index: the non-key fields of the
schema (lines 64-70). -/
structure DocRecord where
  title : String
  content : String
  domain : String
  crawlDate : String
deriving DecidableEq

/-- The document store of the index, keyed by the unique `url` field. -/
structure WhooshIndex where
  docs : List (String × DocRecord)
deriving DecidableEq

/-- Modelled from Whoosh `IndexWriter.update_document` with `url` the
unique field: delete every stored document whose url equals the key, then
add the new document. -/
def update_document (url : String) (d : DocRecord) (ix : WhooshIndex) :
    WhooshIndex :=
  ⟨ix.docs.filter (fun p => p.1 ≠ url) ++ [(url, d)]⟩

/-- `IndexerNode.add_document` (lines 83-106): build the record — domain
from the url, crawl date from the clock, passed here as `now` — run
`update_document`, commit, and return True.  (The except branch concerns
Whoosh runtime failures whose trigger is outside the model; no modelled
step raises.) -/
def add_document (url title content now : String) (ix : WhooshIndex) :
    Bool × WhooshIndex :=
  (true, update_document url ⟨title, content, extractDomain url, now⟩ ix)

/-- The posting state of the index, over an arbitrary analysis pipeline
`analyze` (Whoosh applies lowercasing, splitting and stemming; the
theorems below hold for every pipeline): for a term and a field (true =
title, false = content), the documents holding the term, with term
frequencies. -/
def postings (analyze : String → List String) (ix : WhooshIndex)
    (term : String) (titleField : Bool) : List (String × Nat) :=
  (ix.docs.map (fun p =>
      (p.1, (analyze (if titleField then p.2.title else p.2.content)).count term))).filter
    (fun q => q.2 ≠ 0)

/-- One element of the result list `IndexerNode.search` builds
(lines 166-180). -/
structure SearchHit where
  url : String
  title : String
  snippet : String
deriving DecidableEq

/-- `IndexerNode.search` (lines 151-186), the Whoosh searcher abstracted:
`parseOk` says whether `parser.parse` and `searcher.search` ran without
raising, `hits` is what the searcher produced when they did.  The whole
body sits in a try/except that turns any exception into an empty result
list; the only state change is the `searches_performed` counter — the
index is only read. -/
def searchMethod (parseOk : Bool) (hits : List SearchHit)
    (searchesPerformed : Nat) : List SearchHit × Nat :=
  (if parseOk then hits else [], searchesPerformed + 1)

/-- The `/search` Flask route (lines 360-369): a missing or empty `q` is
answered 400 with an error body; anything else runs `IndexerNode.search`
and is answered 200.  Output: status code, result list, the index after
the request, and the searches counter after the request. -/
def searchRoute (q : String) (parseOk : Bool) (hits : List SearchHit)
    (ix : WhooshIndex) (searchesPerformed : Nat) :
    Nat × List SearchHit × WhooshIndex × Nat :=
  if q = "" then (400, [], ix, searchesPerformed)
  else
    let r := searchMethod parseOk hits searchesPerformed
    (200, r.1, ix, r.2)

/-- Outcome of one POST to the crawler deployment's `/submit` endpoint
(the endpoint is served outside this repository): a 200 answer, a non-200
answer, or a connection error / timeout. -/
inductive SubmitOutcome where
  | accepted
  | rejected (code : Nat)
  | connectionFailed
deriving DecidableEq

/-- Whether the POST answered 200. -/
def SubmitOutcome.isAccepted : SubmitOutcome → Bool
  | .accepted => true
  | _ => false

/-- The seed-submission state of the indexer: the pending-urls file as the
list of its lines, plus the two statistics the seed path maintains. -/
structure SeedState where
  pendingLog : List String
  seedsSubmitted : Nat
  pendingCount : Nat
deriving DecidableEq

/-- `IndexerNode._store_pending_url` (lines 282-291): append the url as
one line of the pending file, then recount the lines. -/
def store_pending_url (u : String) (st : SeedState) : SeedState :=
  { st with pendingLog := st.pendingLog ++ [u],
            pendingCount := st.pendingLog.length + 1 }

/-- `IndexerNode.submit_seed_url` (lines 108-149).  `connected` is the
refreshed `crawler_status["connected"]`; `submit` gives the POST outcome
for the url actually sent.  The first output is the `success` flag, the
second whether the url was stored pending — every failing branch stores
it and words its message as saved-for-later.  Note the scheme fix-up
happens only on the connected path, so a disconnected submission logs the
url verbatim. -/
def submit_seed_url (connected : Bool) (submit : String → SubmitOutcome)
    (url : String) (st : SeedState) : (Bool × Bool) × SeedState :=
  if !connected then ((false, true), store_pending_url url st)
  else
    let url' := if Crawler.isHttpUrl url then url else "http://" ++ url
    match submit url' with
    | .accepted => ((true, false), { st with seedsSubmitted := st.seedsSubmitted + 1 })
    | .rejected _ => ((false, true), store_pending_url url' st)
    | .connectionFailed => ((false, true), store_pending_url url' st)

/-- `IndexerNode.retry_pending_urls` (lines 219-269): read every line of
the pending file, POST each url exactly once in order, bump
`seed_urls_submitted` per 200 answer, then rewrite the file with only the
urls whose POST did not answer 200.  Output: the (submitted, failed)
counts of the returned report and the new state. -/
def retry_pending_urls (submit : String → SubmitOutcome) (st : SeedState) :
    (Nat × Nat) × SeedState :=
  let parts := st.pendingLog.partition (fun u => (submit u).isAccepted)
  ((parts.1.length, parts.2.length),
   { pendingLog := parts.2,
     seedsSubmitted := st.seedsSubmitted + parts.1.length,
     pendingCount := parts.2.length })

/-- The cadence of the background `connection_monitor` loop in `main`
(lines 1271-1290): `time.sleep(60)` between ticks, each tick retrying the
pending urls when the crawler is reachable. -/
def monitorIntervalSeconds : Nat := 60

end Indexer

/-!
Helper lemmas shared by the master-node claims: the inductive invariant
`Master.Inv` holds in every state reachable by complete operations.
-/

namespace Master

theorem admitUrl_preserves_inv (u : String) {s : State} (h : Inv s) :
    Inv (admitUrl u s) := by
  obtain ⟨ha, hn, hq⟩ := h
  unfold admitUrl add_url_to_queue
  by_cases hu : u ∈ s.seen
  · simpa [hu] using ⟨ha, hn, hq⟩
  · have hqu : u ∉ s.queue := fun hc => hu (hq u hc)
    simp only [hu, if_false]
    refine ⟨ha, ?_, ?_⟩
    · simpa [List.nodup_append] using ⟨hn, hqu⟩
    · intro v hv
      rcases List.mem_append.mp hv with hv | hv
      · exact List.mem_cons_of_mem _ (hq v hv)
      · simp only [List.mem_singleton] at hv
        simp [hv]

theorem add_urls_preserves_inv (urls : List String) {s : State} (h : Inv s) :
    Inv (add_urls urls s) := by
  induction urls generalizing s with
  | nil => simpa [add_urls]
  | cons u us ih =>
      simp only [add_urls, List.foldl_cons]
      exact ih (admitUrl_preserves_inv u h)

theorem inv_of_reach {s : State} (h : Reach s) : Inv s := by
  induction h with
  | init seeds =>
      exact add_urls_preserves_inv seeds (by simp [Inv, emptyState])
  | addUrls urls _ ih => exact add_urls_preserves_inv urls ih
  | sqsResult m _ ih =>
      obtain ⟨ha, hn, hq⟩ := ih
      unfold process_sqs_result
      by_cases hs : m.success
      · simp only [hs, if_true]
        exact add_urls_preserves_inv _ ⟨ha, hn, hq⟩
      · simpa [hs] using ⟨ha, hn, hq⟩
  | crawlResult taskId url success extracted _ ih =>
      obtain ⟨ha, hn, hq⟩ := ih
      unfold process_crawl_result
      simp [ha]
      exact ⟨ha, hn, hq⟩

end Master

namespace Master

/-- Concrete master state for claim C1: one url admitted, nothing else. -/
def c1State : State := add_urls ["http://u.test/"] (initState [])

/-- The failure report a crawler files for that url (its first attempt). -/
def c1Msg : SqsResult :=
  { url := "http://u.test/", success := false, extracted := []
    error := some "HTTP Error: 500" }

/-- C1, counterexample.  The claim says a failure report for a url whose
attempt count is below MAX_ATTEMPTS (first failure, 0 < 3) re-admits the
url at the tail of the frontier queue.  Processing the failure report for
the freshly admitted url leaves the queue as it was: the url is not
re-admitted (the master has no attempt counter, no retry path and no
terminal-failure set). -/
theorem c1_counterexample :
    (process_sqs_result c1Msg c1State).queue ≠ c1State.queue ++ ["http://u.test/"] := by
  decide

/-- C1, amended: when a completion reports failure, the master only
increments the `urls_failed` counter; the url is not re-admitted, no
attempt counter exists, and no terminal-failure set exists. -/
theorem c1_failure_only_counts (m : SqsResult) (s : State)
    (h : m.success = false) :
    process_sqs_result m s = { s with urlsFailed := s.urlsFailed + 1 } := by
  simp [process_sqs_result, h]

/-- Witness for C1 at the concrete failure report. -/
theorem c1_witness :
    c1Msg.success = false ∧
      process_sqs_result c1Msg c1State
        = { c1State with urlsFailed := c1State.urlsFailed + 1 } :=
  ⟨rfl, c1_failure_only_counts c1Msg c1State rfl⟩

/-- The state of the master between `add_url_to_queue(url)` and
`seen_urls.add(url)` while admitting the first url of an `/add_urls`
request on a fresh master. -/
def c2BadState : State := add_url_to_queue "http://a.test/" (initState [])

/-- C2, counterexample.  The claim says a url is inserted into the
SeenSet before it is appended to the queue and that no reachable state
has a queued-but-unseen url.  The code appends to the queue first
(`add_urls`, line 217) and inserts into `seen_urls` second (line 218), so
the state in between — reachable, and observable since the queue is a
remote SQS queue — holds the url in the queue and not in the seen set. -/
theorem c2_counterexample :
    ReachFine c2BadState ∧
      "http://a.test/" ∈ c2BadState.queue ∧ "http://a.test/" ∉ c2BadState.seen := by
  refine ⟨?_, by decide, by decide⟩
  exact ReachFine.midAdmit "http://a.test/" (by decide) (ReachFine.init [])

/-- C2, amended: every admission appends the url to the queue first and
inserts it into the SeenSet second; at the completion of every
coordinator operation, every url present in the queue is in the SeenSet
(the queued-but-unseen window exists only between the two statements of
one admission). -/
theorem c2_queue_subset_seen {s : State} (h : Reach s) :
    ∀ u, u ∈ s.queue → u ∈ s.seen :=
  (inv_of_reach h).2.2

/-- Witness for C2 at the state reached by admitting one seed. -/
theorem c2_witness :
    "http://a.test/" ∈ (initState ["http://a.test/"]).queue ∧
      "http://a.test/" ∈ (initState ["http://a.test/"]).seen :=
  ⟨by decide, c2_queue_subset_seen (Reach.init ["http://a.test/"]) _ (by decide)⟩

/-- C3: no coordinator operation ever inserts into `active_tasks`, so it
is empty in every reachable state, and every `/submit_result` request
takes the unknown-task branch of `process_crawl_result` and leaves the
whole state — visited set, seen set, queue, statistics — unchanged, for
every input. -/
theorem c3_active_tasks_empty {s : State} (h : Reach s) :
    s.activeTasks = [] ∧
      ∀ taskId url success extracted,
        process_crawl_result taskId url success extracted s = s := by
  have ha := (inv_of_reach h).1
  refine ⟨ha, fun taskId url success extracted => ?_⟩
  simp [process_crawl_result, ha]

/-- Witness for C3 at the state reached by admitting one seed. -/
theorem c3_witness :
    (initState ["http://example.com/"]).activeTasks = [] ∧
      process_crawl_result "task-1" "http://u.test/" true ["http://v.test/"]
          (initState ["http://example.com/"])
        = initState ["http://example.com/"] := by
  have h := c3_active_tasks_empty (Reach.init ["http://example.com/"])
  exact ⟨h.1, h.2 "task-1" "http://u.test/" true ["http://v.test/"]⟩

/-- The state reached when one admission of a url is interleaved with
another admission of the same url: thread A (an SQS-result processor or
an `/add_urls` handler) has passed the `seen_urls` test and executed
`add_url_to_queue(url)` but not yet `seen_urls.add(url)` — the `midAdmit`
state — and thread B then runs a full admission of the same url, whose
`seen_urls` test still passes.  The admission window is unlocked
(`process_sqs_results` runs in its own daemon thread beside the threaded
Flask handlers), so this interleaving is a real execution. -/
def c6BadState : State :=
  add_urls ["http://u.test/"] (add_url_to_queue "http://u.test/" (initState []))

/-- C6, counterexample.  The claim says each canonical url is appended to
the frontier queue at most once within a run.  Admission is an unguarded
check-then-enqueue-then-mark-seen sequence, so two interleaved admissions
of the same url can both pass the check and both enqueue: the state below
is reachable at statement granularity and holds the url twice in the
queue (the queue field is the full send history). -/
theorem c6_counterexample :
    ReachFine c6BadState ∧ c6BadState.queue.count "http://u.test/" = 2 := by
  refine ⟨?_, by decide⟩
  exact ReachFine.addUrls ["http://u.test/"]
    (ReachFine.midAdmit "http://u.test/" (by decide) (ReachFine.init []))

/-- C6, amended: an admission attempt for a url already in the SeenSet
neither enqueues it nor changes the SeenSet, and a fresh admission
appends the url once and grows the SeenSet by exactly one; consequently,
as long as admissions do not interleave — the operation-atomic semantics
`Reach`, in which each admission's check, enqueue and seen-insert run as
a unit — each url occurs at most once in the task queue (the queue field
is the full send history, so this is at-most-one-enqueue over such a
run).  Under interleaved admissions the at-most-once bound fails, as the
counterexample above shows. -/
theorem c6_admission_dedup {s : State} (h : Reach s) (u : String) :
    s.queue.count u ≤ 1 ∧
      (u ∈ s.seen → admitUrl u s = s) ∧
      (u ∉ s.seen →
        (admitUrl u s).queue = s.queue ++ [u] ∧
          (admitUrl u s).seen.length = s.seen.length + 1) := by
  obtain ⟨-, hn, -⟩ := inv_of_reach h
  refine ⟨List.nodup_iff_count_le_one.mp hn u, fun hu => by simp [admitUrl, hu],
    fun hu => ?_⟩
  simp [admitUrl, add_url_to_queue, hu]

/-- Witness for C6: the state after one seed, probed with an already-seen
url and with a fresh url. -/
theorem c6_witness :
    (initState ["http://a.test/"]).queue.count "http://a.test/" ≤ 1 ∧
      admitUrl "http://a.test/" (initState ["http://a.test/"])
        = initState ["http://a.test/"] ∧
      (admitUrl "http://b.test/" (initState ["http://a.test/"])).queue
        = (initState ["http://a.test/"]).queue ++ ["http://b.test/"] ∧
      (admitUrl "http://b.test/" (initState ["http://a.test/"])).seen.length
        = (initState ["http://a.test/"]).seen.length + 1 := by
  have ha := c6_admission_dedup (Reach.init ["http://a.test/"]) "http://a.test/"
  have hb := c6_admission_dedup (Reach.init ["http://a.test/"]) "http://b.test/"
  have hbn : "http://b.test/" ∉ (initState ["http://a.test/"]).seen := by decide
  exact ⟨ha.1, ha.2.1 (by decide), (hb.2.2 hbn).1, (hb.2.2 hbn).2⟩

end Master

namespace Crawler

/-- A response for claim C4: the request to `http://a.com/x` was
redirected, the final URL is `http://b.com/dir/`, and the page holds one
relative link. -/
def c4Resp : HttpResponse :=
  { status := 200, finalUrl := "http://b.com/dir/", hrefs := ["page.html"]
    title := "T", text := "text" }

/-- C4, counterexample.  The claim says links are resolved against the
response's final URL after redirects.  `crawl_url` resolves against its
`url` argument — the requested URL — so on the redirected response it
returns `http://a.com/page.html` where resolution against the final URL
would give `http://b.com/dir/page.html`. -/
theorem c4_counterexample :
    (crawl_url true c4Resp "http://a.com/x").1
        = CrawlOutcome.success ["http://a.com/page.html"] "T" "text" ∧
      specExtractLinks c4Resp.finalUrl c4Resp.hrefs = ["http://b.com/dir/page.html"] ∧
      extractLinks "http://a.com/x" c4Resp.hrefs
        ≠ specExtractLinks c4Resp.finalUrl c4Resp.hrefs := by
  refine ⟨by decide, by decide, by decide⟩

/-- C4, amended: every link of a successful fetch is obtained by
resolving the page's href values against the *requested* URL (the
response's final URL is never read), stripping the fragment, and keeping
only http(s) URLs; a link with any other scheme is never returned by the
fetcher. -/
theorem c4_links_from_request_url (resp : HttpResponse) (url : String)
    (h : resp.status = 200) :
    (crawl_url true resp url).1
        = CrawlOutcome.success (extractLinks url resp.hrefs) resp.title resp.text ∧
      ∀ l ∈ extractLinks url resp.hrefs,
        isHttpUrl l = true ∧
          ∃ href ∈ resp.hrefs, l = stripFragment (urljoin url href) := by
  refine ⟨by simp [crawl_url, h], fun l hl => ?_⟩
  unfold extractLinks at hl
  rw [List.mem_filter] at hl
  obtain ⟨hm, hp⟩ := hl
  obtain ⟨href, hh, rfl⟩ := List.mem_map.mp hm
  exact ⟨hp, href, hh, rfl⟩

/-- Witness for C4 at the concrete redirected response. -/
theorem c4_witness :
    c4Resp.status = 200 ∧
      (crawl_url true c4Resp "http://a.com/x").1
        = CrawlOutcome.success (extractLinks "http://a.com/x" c4Resp.hrefs)
            c4Resp.title c4Resp.text ∧
      isHttpUrl "http://a.com/page.html" = true := by
  have h := c4_links_from_request_url c4Resp "http://a.com/x" rfl
  exact ⟨rfl, h.1, (h.2 "http://a.com/page.html" (by decide)).1⟩

/-- C5, counterexample.  The claim says a robots.txt fetch failing with a
status ≥ 500 makes `can_fetch` answer true (and set a 3-second
crawl-delay).  On a 500 answer the HTTPError is absorbed inside
`RobotFileParser.read`, which leaves an empty parser with `last_checked`
unset, and `can_fetch` answers false — and the crawler has no crawl-delay
state at all. -/
theorem c5_counterexample :
    (can_fetch ⟨[]⟩ "h.test" true (RobotsFetch.httpStatus 500) "http://h.test/a").1
      = false := by
  decide

/-- C5, amended: a robots.txt fetch that raises a network error makes
`can_fetch` return true and leaves the cache unchanged; a fetch answered
with a status ≥ 500 is absorbed inside the parser and makes `can_fetch`
return false; no crawl-delay is set in either case — the crawler has no
crawl-delay mechanism (its politeness sleep is the fixed 1 second of
`crawl_url`). -/
theorem c5_robots_failure_behavior (st : RobotsCacheState)
    (domain url : String) (c : Nat) (h : 500 ≤ c) :
    can_fetch st domain true RobotsFetch.networkError url = (true, st) ∧
      (can_fetch st domain true (RobotsFetch.httpStatus c) url).1 = false := by
  have h1 : ¬(c = 401 ∨ c = 403) := by omega
  have h2 : ¬(400 ≤ c ∧ c < 500) := by omega
  refine ⟨by simp [can_fetch, readRobots], ?_⟩
  simp [can_fetch, readRobots, h1, h2, parserCanFetch]

/-- Witness for C5 on an empty cache at status 500. -/
theorem c5_witness :
    can_fetch ⟨[]⟩ "h.test" true RobotsFetch.networkError "http://h.test/a"
        = (true, ⟨[]⟩) ∧
      (can_fetch ⟨[]⟩ "h.test" true (RobotsFetch.httpStatus 500) "http://h.test/a").1
        = false :=
  c5_robots_failure_behavior ⟨[]⟩ "h.test" "http://h.test/a" 500 (by norm_num)

/-- A response for claim C7: the fetch of a host whose robots.txt
declares a crawl-delay of 3 seconds. -/
def c7Resp : HttpResponse :=
  { status := 200, finalUrl := "http://slow.test/a", hrefs := []
    title := "T", text := "text" }

/-- C7, counterexample.  The claim says the interval between two
successive requests of one worker to one host is at least `delay_for(h)`.
The only inter-request pause `crawl_url` enforces is its fixed 1-second
sleep, which is below `delay_for` for a host whose robots crawl-delay is
3 seconds. -/
theorem c7_counterexample :
    (crawl_url true c7Resp "http://slow.test/a").2 < delay_for (some 3) := by
  decide

/-- C7, amended: before every allowed fetch the worker sleeps the fixed
1 second — the spec's default delay with no crawl-delay present —
irrespective of the host and of any robots crawl-delay; no per-host
`delay_for` bound is enforced. -/
theorem c7_fixed_sleep (resp : HttpResponse) (url : String) :
    (crawl_url true resp url).2 = delay_for none := by
  unfold crawl_url delay_for
  by_cases h : resp.status = 200 <;> simp [h]

end Crawler

namespace Indexer

/-- C8: document upsert is idempotent — indexing the same document (same
url, title, content) twice yields the same index as indexing it once (up
to the crawl timestamp of the last write), because `update_document`
removes the prior postings for that url before inserting the new ones;
and the posting state, for every analysis pipeline, every term and both
analyzed fields, does not depend on the write's timestamp at all. -/
theorem c8_upsert_idempotent (analyze : String → List String)
    (url title content now1 now2 term : String) (titleField : Bool)
    (ix : WhooshIndex) :
    (add_document url title content now2
        (add_document url title content now1 ix).2).2
      = (add_document url title content now2 ix).2 ∧
    postings analyze (add_document url title content now1 ix).2 term titleField
      = postings analyze (add_document url title content now2 ix).2 term titleField := by
  constructor
  · simp [add_document, update_document, List.filter_append, List.filter_filter]
  · simp [add_document, update_document, postings, List.filter_append,
      List.map_append]

end Indexer

namespace Indexer

/-- A one-document index used by the C9 witnesses. -/
def c9Index : WhooshIndex :=
  ⟨[("http://d.test/", ⟨"T", "body words", "d.test", "2025-01-01"⟩)]⟩

/-- C9, counterexample.  The claim says every malformed query string is
answered with a 400-class response.  `IndexerNode.search` wraps its whole
body in a try/except that swallows any parse error and returns an empty
list, so the route answers a malformed query with status 200 — not a
400-class status. -/
theorem c9_counterexample :
    (searchRoute "AND (" false [] c9Index 0).1 = 200 ∧
      ¬(400 ≤ (searchRoute "AND (" false [] c9Index 0).1 ∧
          (searchRoute "AND (" false [] c9Index 0).1 < 500) := by
  decide

/-- C9, amended: only a missing or empty `q` parameter is answered 400;
every nonempty query string, malformed ones included, is answered 200,
with a raising parse yielding an empty result list; and the query path
never modifies the index. -/
theorem c9_search_route_behavior (q : String) (parseOk : Bool)
    (hits : List SearchHit) (ix : WhooshIndex) (n : Nat) (h : q ≠ "") :
    (searchRoute q parseOk hits ix n).1 = 200 ∧
      (searchRoute q parseOk hits ix n).2.2.1 = ix ∧
      (searchRoute "" parseOk hits ix n).1 = 400 ∧
      (parseOk = false → (searchRoute q parseOk hits ix n).2.1 = []) := by
  refine ⟨by simp [searchRoute, searchMethod, h], by simp [searchRoute, h],
    by simp [searchRoute], fun hp => ?_⟩
  simp [searchRoute, searchMethod, h, hp]

/-- Witness for C9 at a concrete query against the one-document index. -/
theorem c9_witness :
    (searchRoute "example" false [] c9Index 5).1 = 200 ∧
      (searchRoute "example" false [] c9Index 5).2.2.1 = c9Index ∧
      (searchRoute "" false [] c9Index 5).1 = 400 ∧
      (searchRoute "example" false [] c9Index 5).2.1 = [] := by
  have h := c9_search_route_behavior "example" false [] c9Index 5 (by decide)
  exact ⟨h.1, h.2.1, h.2.2.1, h.2.2.2 rfl⟩

/-- The POST outcome while the crawler service is down: every request
fails to connect. -/
def c10Submit : String → SubmitOutcome := fun _ => SubmitOutcome.connectionFailed

/-- C10, counterexample.  The claim says a seed submitted while the crawl
service is unreachable is surfaced to the caller as accepted-but-deferred.
`submit_seed_url` returns success = false on that path (rendered as an
error flash / a failing JSON reply by the `/submit-url` route), even
though its message says the url was saved for later. -/
theorem c10_counterexample :
    ((submit_seed_url false c10Submit "http://y.test/" ⟨[], 0, 0⟩).1).1 = false := by
  decide

/-- C10, amended: when the crawl service is unreachable at seed
submission, the url is appended to the pending-seed log (one url per
line) and the caller is answered success = false with the
stored-for-later message; the background monitor loop ticks every 60
seconds, and one retry pass submits each logged url exactly once, counts
the accepted ones into `seed_urls_submitted`, and writes back exactly the
still-failing urls. -/
theorem c10_deferred_seed_behavior (submit : String → SubmitOutcome)
    (url : String) (st : SeedState) :
    submit_seed_url false submit url st
        = ((false, true),
           { st with pendingLog := st.pendingLog ++ [url],
                     pendingCount := st.pendingLog.length + 1 }) ∧
      (retry_pending_urls submit st).2.pendingLog
          = st.pendingLog.filter (fun u => !(submit u).isAccepted) ∧
      (retry_pending_urls submit st).1.1
          = (st.pendingLog.filter (fun u => (submit u).isAccepted)).length ∧
      (retry_pending_urls submit st).2.seedsSubmitted
          = st.seedsSubmitted
              + (st.pendingLog.filter (fun u => (submit u).isAccepted)).length ∧
      monitorIntervalSeconds = 60 := by
  have hf : st.pendingLog.filter (not ∘ fun u => (submit u).isAccepted)
      = st.pendingLog.filter (fun u => !(submit u).isAccepted) :=
    List.filter_congr fun u _ => by simp [Function.comp]
  refine ⟨by simp [submit_seed_url, store_pending_url], ?_, ?_, ?_, rfl⟩ <;>
    simp [retry_pending_urls, List.partition_eq_filter_filter, hf]

end Indexer
